import Mathlib

/-!
Verification development for the Jaaga unified booking and settlement engine.

Monetary values are embedded as exact rationals (`ℚ`): the source stores money
in `Numeric(10,2)` columns and computes with Python `Decimal` (exact decimal
arithmetic) and occasionally `float`; rationals model both exactly at the
precision the claims concern.

All definitions are translated from the repository sources:
  * `models/unified_booking.py`   — `TaxProfile.calculate_tax`, booking tables
  * `models/owner_settings.py`    — `OwnerSettings.calculate_subtotal_from_total`,
                                    `calculate_total_from_subtotal`, ledger tables
  * `routes/scheduling.py`        — `create_booking`, `cancel_booking`, `issue_ticket`
  * `backend/services/pricing_engine.py` — `PricingEngine`
-/

namespace Jaaga

/-! ## Decimal rounding primitives

`Decimal.quantize(Decimal('0.01'), rounding=...)` semantics:
`ROUND_UP` rounds away from zero, `ROUND_DOWN` rounds toward zero,
`ROUND_HALF_UP` rounds ties away from zero.  Python's builtin
`round(x, 2)` rounds ties to even. -/

/-- Quantize to two decimal places, rounding away from zero
(Python `Decimal` rounding mode `ROUND_UP`). -/
def quantUp (x : ℚ) : ℚ :=
  if 0 ≤ x then (⌈x * 100⌉ : ℚ) / 100 else (⌊x * 100⌋ : ℚ) / 100

/-- Quantize to two decimal places, rounding toward zero
(Python `Decimal` rounding mode `ROUND_DOWN`). -/
def quantDown (x : ℚ) : ℚ :=
  if 0 ≤ x then (⌊x * 100⌋ : ℚ) / 100 else (⌈x * 100⌉ : ℚ) / 100

/-- Quantize to two decimal places, rounding ties away from zero
(Python `Decimal` rounding mode `ROUND_HALF_UP`). -/
def quantHalfUp (x : ℚ) : ℚ :=
  if 0 ≤ x then (⌊x * 100 + 1/2⌋ : ℚ) / 100 else (⌈x * 100 - 1/2⌉ : ℚ) / 100

/-- Round a rational to the nearest integer, ties to even
(the rounding used by Python's builtin `round`). -/
def roundHalfEven (x : ℚ) : ℤ :=
  if x - ⌊x⌋ < 1/2 then ⌊x⌋
  else if 1/2 < x - ⌊x⌋ then ⌊x⌋ + 1
  else if ⌊x⌋ % 2 = 0 then ⌊x⌋ else ⌊x⌋ + 1

/-- Python `round(x, 2)`: round to two decimal places, ties to even. -/
def pyRound2 (x : ℚ) : ℚ := (roundHalfEven (x * 100) : ℚ) / 100

theorem abs_roundHalfEven_sub_le (x : ℚ) : |(roundHalfEven x : ℚ) - x| ≤ 1 / 2 := by
  have h0 : (⌊x⌋ : ℚ) ≤ x := Int.floor_le x
  have h1 : x < ⌊x⌋ + 1 := Int.lt_floor_add_one x
  rw [abs_le]
  unfold roundHalfEven
  split_ifs with ha hb hc <;> constructor <;> push_cast <;> linarith

theorem abs_pyRound2_sub_le (x : ℚ) : |pyRound2 x - x| ≤ 1 / 200 := by
  have h := abs_roundHalfEven_sub_le (x * 100)
  unfold pyRound2
  have heq : (roundHalfEven (x * 100) : ℚ) / 100 - x
      = ((roundHalfEven (x * 100) : ℚ) - x * 100) / 100 := by ring
  rw [heq, abs_div]
  have h100 : |(100 : ℚ)| = 100 := by norm_num
  rw [h100]
  linarith

/-! ## Tax profiles (`models/unified_booking.py`, `TaxProfile`) -/

/-- One tax line of a `TaxProfile` (`lines` JSON array element).
In the source a line is a JSON object read with defaults
`active=True`, `type='PERCENT'`, `value=0`, `applies_to='FARE'`;
here the defaulted values are the fields themselves. -/
structure TaxLine where
  active : Bool
  type : String
  value : ℚ
  applies_to : String
deriving DecidableEq, Repr

/-- A `TaxProfile` row: its tax lines in stored order and its rounding rule. -/
structure TaxProfile where
  lines : List TaxLine
  rounding_rule : String
deriving DecidableEq, Repr

/-- The loop body of `TaxProfile.calculate_tax`: skip an inactive line; a
`PERCENT` line taxes either the fare or the running total-so-far; any other
type adds its flat value. -/
def tax_line_step (base_amount total_tax : ℚ) (line : TaxLine) : ℚ :=
  if !line.active then total_tax
  else
    let tax_amount :=
      if line.type = "PERCENT" then
        if line.applies_to = "FARE" then base_amount * (line.value / 100)
        else (base_amount + total_tax) * (line.value / 100)
      else line.value
    total_tax + tax_amount

/-- Method `TaxProfile.calculate_tax(self, base_amount)`: fold the lines accumulating
`total_tax` via `tax_line_step`, then quantize the sum once according to the
profile's rounding rule. -/
def calculate_tax (p : TaxProfile) (base_amount : ℚ) : ℚ :=
  let total_tax := p.lines.foldl (tax_line_step base_amount) 0
  if p.rounding_rule = "ROUND_UP" then quantUp total_tax
  else if p.rounding_rule = "ROUND_DOWN" then quantDown total_tax
  else quantHalfUp total_tax

/-- Modelled from the spec (§4.1): the contribution of one active tax line given
the fare `base` and the tax `acc` accumulated from prior lines: a PERCENT line
with `applies_to` FARE contributes `value`% of the base amount, a PERCENT line
with `applies_to` TOTAL contributes `value`% of (base amount + accumulated tax),
and a FIXED line contributes its flat value. -/
def specLineTax (base acc : ℚ) (line : TaxLine) : ℚ :=
  if line.type = "PERCENT" ∧ line.applies_to = "FARE" then base * (line.value / 100)
  else if line.type = "PERCENT" ∧ line.applies_to = "TOTAL" then
    (base + acc) * (line.value / 100)
  else if line.type = "FIXED" then line.value
  else 0

/-- Modelled from the spec (§4.1): iterate the lines in stored order, active
lines contributing `specLineTax`, inactive lines skipped. -/
def specTaxSum (base : ℚ) : ℚ → List TaxLine → ℚ
  | acc, [] => acc
  | acc, line :: rest =>
      if line.active then specTaxSum base (acc + specLineTax base acc line) rest
      else specTaxSum base acc rest

/-- Modelled from the spec (§4.1): the rounding rule applied exactly once to the
summed tax — ceiling for ROUND_UP, truncation for ROUND_DOWN, half-up for
ROUND_NEAREST. -/
def specRound (rule : String) (x : ℚ) : ℚ :=
  if rule = "ROUND_UP" then quantUp x
  else if rule = "ROUND_DOWN" then quantDown x
  else quantHalfUp x

/-! ## Owner settings tax configuration (`models/owner_settings.py`) -/

/-- One entry of `OwnerSettings.tax_configurations['taxes']`: read with defaults
`enabled=False`, `rate=0`, `type='percentage'`, `inclusive=False`. -/
structure CfgTax where
  enabled : Bool
  rate : ℚ
  type : String
  inclusive : Bool
deriving DecidableEq, Repr

/-- Column `OwnerSettings.tax_configurations`: the `enabled` master switch and the
list of configured taxes. -/
structure TaxConfig where
  enabled : Bool
  taxes : List CfgTax
deriving DecidableEq, Repr

/-- The flat-inclusive subtraction loop body of
`calculate_subtotal_from_total`. -/
def flat_sub_step (s : ℚ) (t : CfgTax) : ℚ :=
  if t.type = "flat" then s - t.rate else s

/-- The effective-rate accumulation loop body
(`effective_rate += rate / 100`). -/
def rate_add_step (r : ℚ) (t : CfgTax) : ℚ := r + t.rate / 100

/-- Method `OwnerSettings.calculate_subtotal_from_total(self, total_amount)`:
if taxes are disabled or no enabled inclusive tax exists, return the total
unchanged; otherwise subtract the flat inclusive taxes, then divide by
`1 + Σ(inclusive percentage rates)/100` when any inclusive percentage tax
exists, and round the result to two decimal places. -/
def calculate_subtotal_from_total (cfg : TaxConfig) (total_amount : ℚ) : ℚ :=
  if !cfg.enabled then total_amount
  else
    let inclusive_taxes := cfg.taxes.filter (fun t => t.enabled && t.inclusive)
    if inclusive_taxes.isEmpty then total_amount
    else
      let subtotal := inclusive_taxes.foldl flat_sub_step total_amount
      let percentage_taxes := inclusive_taxes.filter (fun t => t.type = "percentage")
      let subtotal :=
        if percentage_taxes.isEmpty then subtotal
        else subtotal / percentage_taxes.foldl rate_add_step 1
      pyRound2 subtotal

/-- The exclusive-tax addition loop body of `calculate_total_from_subtotal`. -/
def exclusive_add_step (subtotal : ℚ) (tot : ℚ) (t : CfgTax) : ℚ :=
  if !t.inclusive then
    if t.type = "percentage" then tot + subtotal * (t.rate / 100)
    else tot + t.rate
  else tot

/-- The inclusive-tax loop body of `calculate_total_from_subtotal`: a
percentage tax accumulates the effective rate in the first component; a flat
tax adds its rate to the (subsequently discarded) second component. -/
def inclusive_pair_step (p : ℚ × ℚ) (t : CfgTax) : ℚ × ℚ :=
  if t.type = "percentage" then (p.1 + t.rate / 100, p.2)
  else (p.1, p.2 + t.rate)

/-- Method `OwnerSettings.calculate_total_from_subtotal(self, subtotal)`:
if taxes are disabled or none are enabled, return the subtotal unchanged;
otherwise add the exclusive taxes to the subtotal, and then — when any
inclusive tax exists — discard that sum and return
`subtotal * (1 + Σ(inclusive percentage rates)/100)` instead (the loop's
flat-inclusive additions to `total` are likewise discarded by this final
overwrite, exactly as in the source); round to two decimal places. -/
def calculate_total_from_subtotal (cfg : TaxConfig) (subtotal : ℚ) : ℚ :=
  if !cfg.enabled then subtotal
  else
    let enabled_taxes := cfg.taxes.filter (fun t => t.enabled)
    if enabled_taxes.isEmpty then subtotal
    else
      let total := enabled_taxes.foldl (exclusive_add_step subtotal) subtotal
      let inclusive_taxes := enabled_taxes.filter (fun t => t.inclusive)
      let total :=
        if inclusive_taxes.isEmpty then total
        else subtotal * (inclusive_taxes.foldl inclusive_pair_step (1, total)).1
      pyRound2 total

/-! ## Booking data model (`models/unified_booking.py`, `models/owner_settings.py`)

Only the columns the verified operations read or write are embedded; audit
columns (timestamps, descriptions, buyer details) are omitted.  Table rows are
kept in lists in ascending-id insertion order, so "most recent entry ordered by
id" is the last matching element of the list. -/

/-- A `Schedule` row: seat counters and the owner-blocked seat numbers
(`schedule.seats` rows with `is_blocked` set). -/
structure Schedule where
  id : ℕ
  owner_id : ℕ
  total_seats : ℤ
  available_seats : ℤ
  blocked_seats : List String
deriving DecidableEq, Repr

/-- A `TicketType` row. -/
structure TicketType where
  id : ℕ
  base_price : ℚ
  active : Bool
deriving DecidableEq, Repr

/-- A `ScheduleTicketType` join row with its per-schedule price modifiers. -/
structure ScheduleTicketType where
  schedule_id : ℕ
  ticket_type_id : ℕ
  surcharge : ℚ
  discount : ℚ
  active : Bool
deriving DecidableEq, Repr

/-- A `ScheduleDestination` row (route stop with its sequence order). -/
structure ScheduleDestination where
  id : ℕ
  schedule_id : ℕ
  sequence_order : ℕ
deriving DecidableEq, Repr

/-- A `Booking` row (monetary and status columns). -/
structure Booking where
  id : ℕ
  owner_id : ℕ
  schedule_id : ℕ
  channel : String
  agent_id : Option ℕ
  subtotal : ℚ
  tax_total : ℚ
  discount_total : ℚ
  grand_total : ℚ
  payment_status : String
  fulfillment_status : String
deriving DecidableEq, Repr

/-- A `BookingTicket` row. -/
structure BookingTicket where
  id : ℕ
  booking_id : ℕ
  ticket_type_id : ℕ
  fare_base_price_snapshot : ℚ
  seat_no : String
deriving DecidableEq, Repr

/-- A `SeatAssignment` row. -/
structure SeatAssignment where
  id : ℕ
  booking_id : ℕ
  ticket_id : ℕ
  seat_no : String
  travel_status : String
deriving DecidableEq, Repr

/-- A `PaymentTransaction` row. -/
structure PaymentTransaction where
  id : ℕ
  booking_id : ℕ
  schedule_id : ℕ
  owner_id : ℕ
  amount : ℚ
deriving DecidableEq, Repr

/-- A `CommissionLedger` row.  `to_app_owner` selects the credited party,
`running_balance` is the receiving party's balance immediately after the
entry. -/
structure LedgerEntry where
  id : ℕ
  transaction_id : ℕ
  commission_amount : ℚ
  from_owner_id : ℕ
  to_app_owner : Bool
  entry_type : String
  running_balance : ℚ
deriving DecidableEq, Repr

/-- An `OwnerAgentConnection` row. -/
structure OwnerAgentConnection where
  owner_id : ℕ
  agent_id : ℕ
  credit_limit : ℚ
  current_balance : ℚ
  status : String
deriving DecidableEq, Repr

/-- User `current_user`: the id and role relevant to the route-level access checks. -/
structure User where
  id : ℕ
  role : String
deriving DecidableEq, Repr

/-- The database state the three operations read and write.  `commission_rate`
is the single active `AppOwnerSettings` row's flat fee (the route lazily
creates a default row with `commission_rate=10.00` when none exists, so the
rate is always present).  `next_id` models the autoincrement id source; rows
are appended with increasing ids. -/
structure DB where
  schedules : List Schedule
  ticket_types : List TicketType
  schedule_ticket_types : List ScheduleTicketType
  destinations : List ScheduleDestination
  bookings : List Booking
  tickets : List BookingTicket
  seat_assignments : List SeatAssignment
  transactions : List PaymentTransaction
  ledger : List LedgerEntry
  connections : List OwnerAgentConnection
  commission_rate : ℚ
  next_id : ℕ
deriving DecidableEq, Repr

/-- The JSON payload of the `create_booking` route (the fields the booking
logic reads; `channel`, `currency` and `confirmation_type` carry their
`data.get` defaults when absent from the request). -/
structure CreateRequest where
  ticket_type_id : Option ℕ
  seats : List String
  channel : String
  agent_id : Option ℕ
  pickup_destination_id : Option ℕ
  dropoff_destination_id : Option ℕ
  confirmation_type : String
deriving DecidableEq, Repr

/-! ## create_booking (`routes/scheduling.py`, POST `/<schedule_id>/book`) -/

/-- Route `create_booking(schedule_id)` (POST branch): role-based access checks,
ticket-type and route validation, pricing, then persistence of the booking,
one `BookingTicket` and one `SeatAssignment` per selected seat.

Transcription notes, faithful to the source:
  * no seat-conflict check is performed against existing `SeatAssignment`
    rows, and `schedule.available_seats` is not modified;
  * `subtotal = (base_price + surcharge - discount) * seat_count`,
    `tax_total = 0`, `discount_total = discount * seat_count`, and
    `grand_total = subtotal`;
  * each ticket snapshots `base_price + surcharge - discount`;
  * the random retry-until-unique `Booking.generate_code` and the
    `departure_time` computation touch no state the claims concern and are
    not modelled. -/
def create_booking (db : DB) (schedule_id : ℕ) (user : User) (req : CreateRequest) :
    Except String (DB × Booking) :=
  match db.schedules.find? (fun s => s.id == schedule_id) with
  | none => .error "Schedule not found"
  | some schedule =>
  if user.role = "owner" ∧ user.id ≠ schedule.owner_id then
    .error "Access denied. You can only book on your own boats."
  else if user.role = "agent" ∧ (db.connections.find? (fun c =>
      c.owner_id == schedule.owner_id && c.agent_id == user.id
        && c.status == "approved")).isNone then
    .error "Access denied. You do not have permission to book on this boat."
  else
  match req.ticket_type_id with
  | none => .error "Ticket type is required"
  | some ticket_type_id =>
  match db.ticket_types.find? (fun tt => tt.id == ticket_type_id) with
  | none => .error "Invalid ticket type"
  | some ticket_type =>
  if !ticket_type.active then .error "Invalid ticket type"
  else
  let schedule_ticket_type := db.schedule_ticket_types.find? (fun s =>
    s.schedule_id == schedule_id && s.ticket_type_id == ticket_type_id)
  let base_price := ticket_type.base_price
  let surcharge := (schedule_ticket_type.map (fun s => s.surcharge)).getD 0
  let discount := (schedule_ticket_type.map (fun s => s.discount)).getD 0
  if req.seats.isEmpty then .error "At least one seat must be selected"
  else
  let seat_count := req.seats.length
  let subtotal := (base_price + surcharge - discount) * seat_count
  match req.pickup_destination_id, req.dropoff_destination_id with
  | none, _ => .error "Pickup and dropoff destinations are required"
  | _, none => .error "Pickup and dropoff destinations are required"
  | some pickup_id, some dropoff_id =>
  match db.destinations.find? (fun d => d.id == pickup_id),
        db.destinations.find? (fun d => d.id == dropoff_id) with
  | none, _ => .error "Invalid pickup or dropoff destination"
  | _, none => .error "Invalid pickup or dropoff destination"
  | some pickup_dest, some dropoff_dest =>
  if pickup_dest.schedule_id ≠ schedule_id ∨ dropoff_dest.schedule_id ≠ schedule_id then
    .error "Destinations must belong to the selected schedule"
  else if dropoff_dest.sequence_order ≤ pickup_dest.sequence_order then
    .error "Dropoff point must be after pickup point in the route"
  else
  let booking : Booking :=
    { id := db.next_id
      owner_id := schedule.owner_id
      schedule_id := schedule_id
      channel := req.channel
      agent_id := req.agent_id
      subtotal := subtotal
      tax_total := 0
      discount_total := discount * seat_count
      grand_total := subtotal
      payment_status := "PENDING"
      fulfillment_status :=
        if user.role = "agent" ∧ req.confirmation_type = "immediate" then "CONFIRMED"
        else "UNCONFIRMED" }
  let new_tickets := req.seats.enum.map (fun p =>
    { id := db.next_id + 1 + p.1
      booking_id := db.next_id
      ticket_type_id := ticket_type_id
      fare_base_price_snapshot := base_price + surcharge - discount
      seat_no := p.2 : BookingTicket })
  let new_assignments := req.seats.enum.map (fun p =>
    { id := db.next_id + 1 + p.1
      booking_id := db.next_id
      ticket_id := db.next_id + 1 + p.1
      seat_no := p.2
      travel_status := "ACTIVE" : SeatAssignment })
  .ok ({ db with
          bookings := db.bookings ++ [booking]
          tickets := db.tickets ++ new_tickets
          seat_assignments := db.seat_assignments ++ new_assignments
          next_id := db.next_id + 1 + seat_count },
        booking)

/-! ## cancel_booking (`routes/scheduling.py`, POST `.../bookings/<id>/cancel`) -/

/-- Update `min(total_seats, available_seats + n)`: the clamped seat release applied
to the schedule row on both cancel paths. -/
def updateScheduleSeats (ss : List Schedule) (sid : ℕ) (n : ℕ) : List Schedule :=
  ss.map (fun s =>
    if s.id == sid then { s with available_seats := min s.total_seats (s.available_seats + n) }
    else s)

/-- The booking's currently assigned seat numbers (the pre-delete
`booking.seat_assignments` collection read by `cancel_booking`). -/
def current_seats_of (db : DB) (bid : ℕ) : List String :=
  (db.seat_assignments.filter (fun sa => sa.booking_id == bid)).map (fun sa => sa.seat_no)

/-- The JSON body returned by `cancel_booking`. -/
structure CancelResult where
  message : String
  seats_freed : ℕ
  seats_removed : List String
  remaining_seats : List String
deriving DecidableEq, Repr

/-- Route `cancel_booking(schedule_id, booking_id)`: with an empty seat list, delete
the whole booking (the ORM cascade deletes its tickets and seat assignments)
and release all its seats; otherwise delete the named seat assignments and
matching tickets (the request list is first intersected with the booking's
current seats), recompute the totals from the first ticket's ticket type's
current `base_price` times the remaining seat count, auto-escalating to a full
delete when no seat remains, and release the removed seats.

The source reads `booking.seat_assignments` and `booking.tickets` before the
session flush, so both still show the pre-delete rows; `remaining_seats` is
therefore the pre-delete seat list filtered by the removal list, and
`first_ticket` is the first pre-delete ticket of the booking. -/
def cancel_booking (db : DB) (schedule_id booking_id : ℕ) (user : User)
    (seats_to_remove : List String) : Except String (DB × CancelResult) :=
  match db.schedules.find? (fun s => s.id == schedule_id) with
  | none => .error "Schedule not found"
  | some schedule =>
  if schedule.owner_id ≠ user.id then .error "Access denied."
  else
  match db.bookings.find? (fun b => b.id == booking_id) with
  | none => .error "Booking not found"
  | some booking =>
  if booking.schedule_id ≠ schedule.id then .error "Invalid booking for this schedule"
  else
  if seats_to_remove.isEmpty then
    let seat_count := (db.seat_assignments.filter (fun sa => sa.booking_id == booking_id)).length
    .ok ({ db with
            bookings := db.bookings.filter (fun b => b.id ≠ booking_id)
            tickets := db.tickets.filter (fun t => t.booking_id ≠ booking_id)
            seat_assignments := db.seat_assignments.filter (fun sa => sa.booking_id ≠ booking_id)
            schedules := updateScheduleSeats db.schedules schedule_id seat_count },
          { message := "Entire booking cancelled successfully"
            seats_freed := seat_count
            seats_removed := []
            remaining_seats := [] })
  else
    let current_seats := current_seats_of db booking_id
    let seats_to_remove := seats_to_remove.filter (fun s => s ∈ current_seats)
    if seats_to_remove.isEmpty then .error "No valid seats to remove"
    else
    let remaining_seats := current_seats.filter (fun s => s ∉ seats_to_remove)
    let remaining_count := remaining_seats.length
    if remaining_count = 0 then
      .ok ({ db with
              bookings := db.bookings.filter (fun b => b.id ≠ booking_id)
              tickets := db.tickets.filter (fun t => t.booking_id ≠ booking_id)
              seat_assignments := db.seat_assignments.filter (fun sa => sa.booking_id ≠ booking_id)
              schedules := updateScheduleSeats db.schedules schedule_id seats_to_remove.length },
            { message := "All seats removed, booking cancelled"
              seats_freed := seats_to_remove.length
              seats_removed := seats_to_remove
              remaining_seats := [] })
    else
      let first_ticket := (db.tickets.filter (fun t => t.booking_id == booking_id)).head?
      let updated_booking :=
        match first_ticket with
        | none => booking
        | some ft =>
          match db.ticket_types.find? (fun tt => tt.id == ft.ticket_type_id) with
          | none => booking
          | some ticket_type =>
            let new_subtotal := ticket_type.base_price * remaining_count
            { booking with
                subtotal := new_subtotal
                grand_total := new_subtotal + booking.tax_total - booking.discount_total }
      .ok ({ db with
              bookings := db.bookings.map (fun b =>
                if b.id == booking_id then updated_booking else b)
              tickets := db.tickets.filter (fun t =>
                !(t.booking_id == booking_id && t.seat_no ∈ seats_to_remove))
              seat_assignments := db.seat_assignments.filter (fun sa =>
                !(sa.booking_id == booking_id && sa.seat_no ∈ seats_to_remove))
              schedules := updateScheduleSeats db.schedules schedule_id seats_to_remove.length },
            { message := "seats removed from booking"
              seats_freed := seats_to_remove.length
              seats_removed := seats_to_remove
              remaining_seats := remaining_seats })

/-! ## issue_ticket (`routes/scheduling.py`, POST `.../bookings/<id>/issue-ticket`) -/

/-- The most recent ledger entry matching `p` (the source orders by descending
id and takes the first; the list is in ascending-id order, so this is the last
match), coalesced to balance `0` when no entry matches. -/
def lastBalance (l : List LedgerEntry) (p : LedgerEntry → Bool) : ℚ :=
  match l.reverse.find? p with
  | some e => e.running_balance
  | none => 0

/-- The platform party filter used for the app-owner balance lookup:
`filter_by(to_app_owner=True)`. -/
def isPlatformEntry (e : LedgerEntry) : Bool := e.to_app_owner

/-- The boat-owner party filter used for the owner balance lookup:
`filter_by(from_owner_id=<owner>, to_app_owner=False)`. -/
def isOwnerEntry (owner_id : ℕ) (e : LedgerEntry) : Bool :=
  e.from_owner_id == owner_id && !e.to_app_owner

/-- The app-owner credit entry posted by `issue_ticket`. -/
def platform_credit_entry (db : DB) (user_id : ℕ) : LedgerEntry :=
  { id := db.next_id + 1
    transaction_id := db.next_id
    commission_amount := db.commission_rate
    from_owner_id := user_id
    to_app_owner := true
    entry_type := "credit"
    running_balance := lastBalance db.ledger isPlatformEntry + db.commission_rate }

/-- The boat-owner debit entry posted by `issue_ticket`. -/
def owner_debit_entry (db : DB) (user_id : ℕ) : LedgerEntry :=
  { id := db.next_id + 2
    transaction_id := db.next_id
    commission_amount := db.commission_rate
    from_owner_id := user_id
    to_app_owner := false
    entry_type := "debit"
    running_balance := lastBalance db.ledger (isOwnerEntry user_id) - db.commission_rate }

/-- The agent-payable entry posted by `issue_ticket` for agent-channel
bookings: the full booking total, with the connection's new balance as the
running balance. -/
def agent_payable_entry (db : DB) (user_id : ℕ) (total new_balance : ℚ) : LedgerEntry :=
  { id := db.next_id + 3
    transaction_id := db.next_id
    commission_amount := total
    from_owner_id := user_id
    to_app_owner := false
    entry_type := "credit"
    running_balance := new_balance }

/-- The JSON body returned by `issue_ticket`. -/
structure IssueResult where
  transaction_id : ℕ
  commission_amount : ℚ
  owner_amount : ℚ
  total_amount : ℚ
deriving DecidableEq, Repr

/-- The state mutation performed by `issue_ticket` once all validation has
passed: insert the payment transaction, post the platform credit and owner
debit for the flat commission with replay-derived running balances, and — for
an agent-channel booking whose connection row is found — increment the
connection's `current_balance` by the full total and post the agent-payable
entry; finally flip the booking to `PAID`/`CONFIRMED`. -/
def issue_post (db : DB) (schedule : Schedule) (booking : Booking) (user : User) :
    DB × IssueResult :=
  let commission_amount := db.commission_rate
  let total_amount := booking.grand_total
  let tx : PaymentTransaction :=
    { id := db.next_id
      booking_id := booking.id
      schedule_id := schedule.id
      owner_id := user.id
      amount := total_amount }
  let agentStep : List OwnerAgentConnection × List LedgerEntry :=
    if booking.channel = "AGENT" then
      match booking.agent_id with
      | some agent_id =>
        match db.connections.find? (fun c =>
            c.owner_id == user.id && c.agent_id == agent_id) with
        | some agent_connection =>
          let new_balance := agent_connection.current_balance + total_amount
          (db.connections.map (fun c =>
              if c.owner_id == user.id && c.agent_id == agent_id then
                { c with current_balance := new_balance }
              else c),
           [agent_payable_entry db user.id total_amount new_balance])
        | none => (db.connections, [])
      | none => (db.connections, [])
    else (db.connections, [])
  ({ db with
      transactions := db.transactions ++ [tx]
      ledger := db.ledger ++ platform_credit_entry db user.id
                  :: owner_debit_entry db user.id :: agentStep.2
      connections := agentStep.1
      bookings := db.bookings.map (fun b =>
        if b.id == booking.id then
          { b with payment_status := "PAID", fulfillment_status := "CONFIRMED" }
        else b)
      next_id := db.next_id + 4 },
   { transaction_id := db.next_id
     commission_amount := commission_amount
     owner_amount := total_amount - commission_amount
     total_amount := total_amount })

/-- Route `issue_ticket(schedule_id, booking_id)`: access and payload validation
followed by `issue_post`.  The source never inspects `payment_status`; in
particular an already-`PAID` booking passes every guard and is re-posted. -/
def issue_ticket (db : DB) (schedule_id booking_id : ℕ) (user : User)
    (payment_method : String) : Except String (DB × IssueResult) :=
  match db.schedules.find? (fun s => s.id == schedule_id) with
  | none => .error "Schedule not found"
  | some schedule =>
  if schedule.owner_id ≠ user.id then .error "Access denied."
  else
  match db.bookings.find? (fun b => b.id == booking_id) with
  | none => .error "Booking not found"
  | some booking =>
  if booking.schedule_id ≠ schedule.id then .error "Invalid booking for this schedule"
  else
  if payment_method = "" then .error "Payment method is required"
  else if payment_method ≠ "bank_transfer" ∧ payment_method ≠ "cash" then
    .error "Invalid payment method. Only bank_transfer or cash allowed"
  else
  if (db.seat_assignments.filter (fun sa => sa.booking_id == booking_id)).length = 0 then
    .error "No seats found for this booking"
  else
  match (db.tickets.filter (fun t => t.booking_id == booking_id)).head? with
  | none => .error "No tickets found for this booking"
  | some first_ticket =>
  match db.ticket_types.find? (fun tt => tt.id == first_ticket.ticket_type_id) with
  | none => .error "Ticket type not found"
  | some _ => .ok (issue_post db schedule booking user)

/-! ## PricingEngine (`backend/services/pricing_engine.py`) -/

/-- One element of the `ticket_requests` argument of
`PricingEngine.calculate_booking_price`. -/
structure TicketRequest where
  ticket_type_id : ℕ
  quantity : ℕ
deriving DecidableEq, Repr

/-- The pricing breakdown dict returned by
`PricingEngine.calculate_booking_price`. -/
structure PriceBreakdown where
  subtotal : ℚ
  tax_total : ℚ
  discount_total : ℚ
  app_fee : ℚ
  grand_total : ℚ
deriving DecidableEq, Repr

/-- Method `PricingEngine._get_channel_modifiers(self, channel, agent_id, subtotal)`:
the returned `discount` modifier.  The AGENT-with-agent-id branch is a `pass`
(no modifier); the OWNER branch applies `subtotal * Decimal('0.1')`; every
other case leaves the discount at zero. -/
def get_channel_modifiers (channel : String) (agent_id : Option ℕ) (subtotal : ℚ) : ℚ :=
  if channel = "AGENT" ∧ agent_id.isSome then 0
  else if channel = "OWNER" then subtotal * (1 / 10)
  else 0

/-- The line-item loop of `PricingEngine.calculate_booking_price`: for each
requested ticket type, look it up among the schedule's active ticket types and
in the ticket-type catalog, and accumulate
`(base_price + surcharge - discount) * quantity` into the subtotal.  Errors on
the first request whose ticket type is not enabled or not found. -/
def line_totals (stts : List ScheduleTicketType) (ttypes : List TicketType) :
    List TicketRequest → Except String ℚ
  | [] => .ok 0
  | r :: rest =>
    match stts.find? (fun s => s.ticket_type_id == r.ticket_type_id) with
    | none => .error "Ticket type not enabled for this schedule"
    | some stt =>
      match ttypes.find? (fun tt => tt.id == r.ticket_type_id) with
      | none => .error "Ticket type not found"
      | some tt =>
        (line_totals stts ttypes rest).map
          (fun s => (tt.base_price + stt.surcharge - stt.discount) * r.quantity + s)

/-- Method `PricingEngine.calculate_booking_price(self, ticket_requests, channel,
agent_id)`: filter the schedule's ticket types to the active ones, accumulate
the line totals, compute the tax from the schedule's optional tax profile, take
the channel discount from `_get_channel_modifiers`, set
`grand_total = subtotal + tax_total - discount_total`, and add the app-owner
flat fee to the grand total when it is positive. -/
def calculate_booking_price (schedule_ticket_types : List ScheduleTicketType)
    (ticket_types : List TicketType) (tax_profile : Option TaxProfile)
    (commission_rate : ℚ) (ticket_requests : List TicketRequest)
    (channel : String) (agent_id : Option ℕ) : Except String PriceBreakdown :=
  let stts := schedule_ticket_types.filter (fun s => s.active)
  if stts.isEmpty then .error "No active ticket types found for this schedule"
  else
  match line_totals stts ticket_types ticket_requests with
  | .error e => .error ("Pricing calculation failed: " ++ e)
  | .ok subtotal =>
    let tax_total :=
      match tax_profile with
      | some p => calculate_tax p subtotal
      | none => 0
    let discount_total := get_channel_modifiers channel agent_id subtotal
    let grand_total := subtotal + tax_total - discount_total
    let app_fee := commission_rate
    .ok { subtotal := subtotal
          tax_total := tax_total
          discount_total := discount_total
          app_fee := app_fee
          grand_total := if 0 < app_fee then grand_total + app_fee else grand_total }

/-! ## Derived views and invariants -/

/-- The booked seats of a schedule: `SeatAssignment` joined to its booking,
filtered to the schedule (the seat-map query at `routes/scheduling.py`
lines 710–715). -/
def booked_seats (db : DB) (sid : ℕ) : List String :=
  (db.seat_assignments.filter (fun sa =>
    (db.bookings.find? (fun b => b.id == sa.booking_id)).any
      (fun b => b.schedule_id == sid))).map (fun sa => sa.seat_no)

/-- The number of ACTIVE seat assignments on a schedule. -/
def active_assignment_count (db : DB) (sid : ℕ) : ℕ :=
  (db.seat_assignments.filter (fun sa =>
    sa.travel_status == "ACTIVE" &&
    (db.bookings.find? (fun b => b.id == sa.booking_id)).any
      (fun b => b.schedule_id == sid))).length

/-- Modelled from the spec (§4.2): the seat-inventory invariant
`available_seats == total_seats − blocked_count − active_assignment_count`. -/
def seat_invariant (db : DB) (s : Schedule) : Prop :=
  s.available_seats = s.total_seats - s.blocked_seats.length - active_assignment_count db s.id

/-- Modelled from the spec (§3): the booking monetary invariant
`grand_total == subtotal + tax_total - discount_total`. -/
def money_invariant (b : Booking) : Prop :=
  b.grand_total = b.subtotal + b.tax_total - b.discount_total

/-! ## Concrete fixtures -/

/-- A published schedule: 10 seats, none blocked, 10 available; owner 1. -/
def sched1 : Schedule := ⟨1, 1, 10, 10, []⟩

/-- An active ticket type priced 100. -/
def tt1 : TicketType := ⟨1, 100, true⟩

/-- The schedule's owner. -/
def owner1 : User := ⟨1, "owner"⟩

/-- Route stops of schedule 1 in sequence order. -/
def destA : ScheduleDestination := ⟨1, 1, 0⟩

/-- Second route stop of schedule 1. -/
def destB : ScheduleDestination := ⟨2, 1, 1⟩

/-- A database with schedule 1, ticket type 1 carrying a per-schedule discount
of 10, and no bookings. -/
def dbDisc : DB :=
  { schedules := [sched1]
    ticket_types := [tt1]
    schedule_ticket_types := [⟨1, 1, 0, 10, true⟩]
    destinations := [destA, destB]
    bookings := []
    tickets := []
    seat_assignments := []
    transactions := []
    ledger := []
    connections := []
    commission_rate := 10
    next_id := 100 }

/-- A booking request for seat A1 with ticket type 1 on the full route. -/
def reqA1 : CreateRequest := ⟨some 1, ["A1"], "PUBLIC", none, some 1, some 2, ""⟩

/-! ## Claim theorems -/

/-- C1: the claim is that `grand_total == subtotal + tax_total - discount_total`
holds after every mutation, in particular immediately after `createBooking` for
any ticket type, surcharge, discount and seat count.  The code violates it:
booking one seat of a ticket type priced 100 with a per-schedule discount of 10
succeeds and stores `subtotal = 90`, `tax_total = 0`, `discount_total = 10`,
`grand_total = 90`, so `grand_total ≠ subtotal + tax_total - discount_total`
(the discount is subtracted inside the unit price and additionally recorded in
`discount_total`). -/
theorem create_booking_violates_money_invariant :
    ∃ p, create_booking dbDisc 1 owner1 reqA1 = Except.ok p ∧
      p.2.grand_total = 90 ∧ p.2.subtotal + p.2.tax_total - p.2.discount_total = 80 ∧
      ¬ money_invariant p.2 := by
  refine ⟨_, rfl, ?_, ?_, ?_⟩ <;> simp only [money_invariant] <;>
    norm_num [dbDisc, tt1, reqA1, List.find?]

/-- An existing booking occupying seat A1 on schedule 1. -/
def bk50 : Booking :=
  ⟨50, 1, 1, "PUBLIC", none, 100, 0, 0, 100, "PENDING", "UNCONFIRMED"⟩

/-- A database in which seat A1 of schedule 1 is already booked (booking 50)
and ticket type 1 carries no per-schedule modifiers. -/
def dbConflict : DB :=
  { schedules := [sched1]
    ticket_types := [tt1]
    schedule_ticket_types := []
    destinations := [destA, destB]
    bookings := [bk50]
    tickets := [⟨51, 50, 1, 100, "A1"⟩]
    seat_assignments := [⟨52, 50, 51, "A1", "ACTIVE"⟩]
    transactions := []
    ledger := []
    connections := []
    commission_rate := 10
    next_id := 100 }

/-- C2: the claim is that a `createBooking` request naming a seat that already
belongs to an active `SeatAssignment` on the same schedule fails with
`SeatConflict` and creates no assignment.  The code performs no conflict check:
with seat A1 of schedule 1 already actively assigned, booking A1 again succeeds
and a second `SeatAssignment` for A1 now exists on the schedule. -/
theorem create_booking_ignores_seat_conflict :
    ∃ p, create_booking dbConflict 1 owner1 reqA1 = Except.ok p ∧
      booked_seats dbConflict 1 = ["A1"] ∧
      (booked_seats p.1 1).count "A1" = 2 ∧
      (p.1.seat_assignments.filter (fun sa =>
        sa.seat_no == "A1" && sa.travel_status == "ACTIVE")).length = 2 := by
  exact ⟨_, rfl, rfl, rfl, rfl⟩

/-- A database with an empty schedule 1 (10 seats, none blocked, 10 available)
and no per-schedule price modifiers. -/
def dbOpen : DB :=
  { schedules := [sched1]
    ticket_types := [tt1]
    schedule_ticket_types := []
    destinations := [destA, destB]
    bookings := []
    tickets := []
    seat_assignments := []
    transactions := []
    ledger := []
    connections := []
    commission_rate := 10
    next_id := 100 }

/-- A booking request for seats A1 and A2. -/
def reqA1A2 : CreateRequest := ⟨some 1, ["A1", "A2"], "PUBLIC", none, some 1, some 2, ""⟩

/-- C5: the claim is that
`available_seats == total_seats − blocked_count − active_assignment_count`
holds after every reserve.  The code never decrements `available_seats` when a
booking reserves seats: starting from an empty 10-seat schedule (where the
invariant holds), booking two seats succeeds, leaves the schedule row — and
its `available_seats = 10` — untouched while two active assignments now exist,
so `10 ≠ 10 − 0 − 2` and the invariant is violated. -/
theorem create_booking_breaks_seat_invariant :
    seat_invariant dbOpen sched1 ∧
    ∃ p, create_booking dbOpen 1 owner1 reqA1A2 = Except.ok p ∧
      p.1.schedules = [sched1] ∧
      active_assignment_count p.1 1 = 2 ∧
      ¬ seat_invariant p.1 sched1 := by
  refine ⟨?_, _, rfl, rfl, rfl, ?_⟩ <;> unfold seat_invariant <;> decide

/-- A pending one-seat booking (id 70) on schedule 1, grand total 200. -/
def bk70 : Booking := ⟨70, 1, 1, "PUBLIC", none, 200, 0, 0, 200, "PENDING", "UNCONFIRMED"⟩

/-- A database with booking 70 ready for ticket issuance and an empty ledger. -/
def dbIssue : DB :=
  { schedules := [sched1]
    ticket_types := [tt1]
    schedule_ticket_types := []
    destinations := [destA, destB]
    bookings := [bk70]
    tickets := [⟨71, 70, 1, 100, "A1"⟩]
    seat_assignments := [⟨72, 70, 71, "A1", "ACTIVE"⟩]
    transactions := []
    ledger := []
    connections := []
    commission_rate := 10
    next_id := 200 }

/-- C3: the claim is that `issueTicket` succeeds only from payment status
PENDING or PARTIAL and that a second invocation on an already-PAID booking is
rejected with no additional ledger entries (the booking's ledger entry count
staying at 2 for a non-agent booking).  The code never inspects
`payment_status`: issuing booking 70 once posts 2 entries and flips it to
PAID, and issuing it again succeeds instead of failing, posting 2 further
entries — the ledger entries tied to the booking's payment transactions grow
from 2 to 4. -/
theorem issue_ticket_not_idempotent :
    ∃ p q, issue_ticket dbIssue 1 70 owner1 "cash" = Except.ok p ∧
      p.1.ledger.length = 2 ∧
      (p.1.bookings.find? (fun b => b.id == 70)).map (fun b => b.payment_status)
        = some "PAID" ∧
      issue_ticket p.1 1 70 owner1 "cash" = Except.ok q ∧
      q.1.ledger.length = 4 ∧
      (q.1.ledger.filter (fun e =>
        (q.1.transactions.find? (fun t => t.id == e.transaction_id)).any
          (fun t => t.booking_id == 70))).length = 4 := by
  exact ⟨_, _, rfl, rfl, rfl, rfl, rfl, rfl⟩

/-- Inversion of a successful `issue_ticket`: the schedule and booking were
found and the result is `issue_post` on them. -/
theorem issue_ticket_ok_inv {db : DB} {sid bid : ℕ} {u : User} {pm : String}
    {r : DB × IssueResult} (h : issue_ticket db sid bid u pm = Except.ok r) :
    ∃ schedule booking,
      db.schedules.find? (fun s => s.id == sid) = some schedule ∧
      db.bookings.find? (fun b => b.id == bid) = some booking ∧
      r = issue_post db schedule booking u := by
  unfold issue_ticket at h
  cases hs : db.schedules.find? (fun s => s.id == sid) with
  | none => simp only [hs] at h; exact Except.noConfusion h
  | some schedule =>
  simp only [hs] at h
  by_cases h1 : schedule.owner_id ≠ u.id
  · simp only [if_pos h1] at h; exact Except.noConfusion h
  simp only [if_neg h1] at h
  cases hb : db.bookings.find? (fun b => b.id == bid) with
  | none => simp only [hb] at h; exact Except.noConfusion h
  | some booking =>
  simp only [hb] at h
  by_cases h2 : booking.schedule_id ≠ schedule.id
  · simp only [if_pos h2] at h; exact Except.noConfusion h
  simp only [if_neg h2] at h
  by_cases h3 : pm = ""
  · simp only [if_pos h3] at h; exact Except.noConfusion h
  simp only [if_neg h3] at h
  by_cases h4 : pm ≠ "bank_transfer" ∧ pm ≠ "cash"
  · simp only [if_pos h4] at h; exact Except.noConfusion h
  simp only [if_neg h4] at h
  by_cases h5 : (db.seat_assignments.filter (fun sa => sa.booking_id == bid)).length = 0
  · simp only [if_pos h5] at h; exact Except.noConfusion h
  simp only [if_neg h5] at h
  cases ht : (db.tickets.filter (fun t => t.booking_id == bid)).head? with
  | none => simp only [ht] at h; exact Except.noConfusion h
  | some first_ticket =>
  simp only [ht] at h
  cases htt : db.ticket_types.find? (fun tt => tt.id == first_ticket.ticket_type_id) with
  | none => simp only [htt] at h; exact Except.noConfusion h
  | some tt =>
  simp only [htt, Except.ok.injEq] at h
  exact ⟨schedule, booking, rfl, rfl, h.symm⟩

/-- A pending agent-channel booking (id 80, agent 2) with grand total 150. -/
def bk80 : Booking := ⟨80, 1, 1, "AGENT", some 2, 150, 0, 0, 150, "PENDING", "UNCONFIRMED"⟩

/-- An approved owner-1 / agent-2 connection with a zero balance. -/
def connOA : OwnerAgentConnection := ⟨1, 2, 1000, 0, "approved"⟩

/-- A database with agent booking 80 ready for ticket issuance. -/
def dbAgent : DB :=
  { schedules := [sched1]
    ticket_types := [tt1]
    schedule_ticket_types := []
    destinations := [destA, destB]
    bookings := [bk80]
    tickets := [⟨81, 80, 1, 100, "A1"⟩]
    seat_assignments := [⟨82, 80, 81, "A1", "ACTIVE"⟩]
    transactions := []
    ledger := []
    connections := [connOA]
    commission_rate := 10
    next_id := 300 }

/-- C4 counterexample: the claim says that on every successful `issueTicket`
exactly two commission ledger entries are posted.  Issuing agent-channel
booking 80 (whose owner–agent connection exists) succeeds and posts three
entries, not two. -/
theorem issue_ticket_agent_posts_three_entries :
    ∃ p, issue_ticket dbAgent 1 80 owner1 "cash" = Except.ok p ∧
      dbAgent.ledger.length = 0 ∧ p.1.ledger.length = 3 := by
  exact ⟨_, rfl, rfl, rfl⟩

/-- C4 (amended): every successful `issueTicket` posts the platform credit and
the boat-owner debit, both for the configured flat commission
`db.commission_rate` (a constant, independent of the booking's fare), each with
`running_balance` equal to the most recent prior entry's running balance for
the same party — entries with `to_app_owner` set for the platform, entries with
this owner's id and `to_app_owner` clear for the owner; 0 if none — plus the
amount for the credit and minus the amount for the debit; these two are the
only entries posted unless the booking is agent-channel with an existing
connection row, in which case exactly one additional entry — the agent payable
for the full grand total, carrying the connection's new balance — follows. -/
theorem issue_ticket_posts_commission_split {db : DB} {sid bid : ℕ} {u : User}
    {pm : String} {r : DB × IssueResult}
    (h : issue_ticket db sid bid u pm = Except.ok r) :
    ∃ booking extra,
      db.bookings.find? (fun b => b.id == bid) = some booking ∧
      r.1.ledger = db.ledger
        ++ platform_credit_entry db u.id :: owner_debit_entry db u.id :: extra ∧
      (platform_credit_entry db u.id).to_app_owner = true ∧
      (platform_credit_entry db u.id).entry_type = "credit" ∧
      (platform_credit_entry db u.id).commission_amount = db.commission_rate ∧
      (platform_credit_entry db u.id).running_balance
        = lastBalance db.ledger isPlatformEntry + db.commission_rate ∧
      (owner_debit_entry db u.id).to_app_owner = false ∧
      (owner_debit_entry db u.id).from_owner_id = u.id ∧
      (owner_debit_entry db u.id).entry_type = "debit" ∧
      (owner_debit_entry db u.id).commission_amount = db.commission_rate ∧
      (owner_debit_entry db u.id).running_balance
        = lastBalance db.ledger (isOwnerEntry u.id) - db.commission_rate ∧
      (¬ (booking.channel = "AGENT" ∧ ∃ a conn, booking.agent_id = some a ∧
          db.connections.find? (fun c => c.owner_id == u.id && c.agent_id == a)
            = some conn) →
        extra = []) ∧
      (∀ a conn, booking.channel = "AGENT" → booking.agent_id = some a →
        db.connections.find? (fun c => c.owner_id == u.id && c.agent_id == a)
          = some conn →
        extra = [agent_payable_entry db u.id booking.grand_total
          (conn.current_balance + booking.grand_total)]) := by
  obtain ⟨schedule, booking, hs, hb, hr⟩ := issue_ticket_ok_inv h
  subst hr
  refine ⟨booking, _, hb, rfl, rfl, rfl, rfl, rfl, rfl, rfl, rfl, rfl, rfl, ?_, ?_⟩
  · intro hno
    by_cases hc : booking.channel = "AGENT"
    · cases ha : booking.agent_id with
      | none => simp only [issue_post, if_pos hc, ha]
      | some a =>
        rcases hfind : db.connections.find? (fun c => c.owner_id == u.id && c.agent_id == a)
          with _ | conn
        · simp only [issue_post, if_pos hc, ha, hfind]
        · exact absurd ⟨hc, a, conn, ha, hfind⟩ hno
    · simp only [issue_post, if_neg hc]
  · intro a conn hc ha hfind
    simp only [issue_post, if_pos hc, ha, hfind]

/-- C4 witness: issuing the non-agent booking 70 from an empty ledger yields a
ledger of exactly the two commission-split entries. -/
theorem issue_ticket_posts_commission_split_witness :
    ∃ p, issue_ticket dbIssue 1 70 owner1 "cash" = Except.ok p ∧
      ∃ extra, p.1.ledger = dbIssue.ledger
          ++ platform_credit_entry dbIssue owner1.id
            :: owner_debit_entry dbIssue owner1.id :: extra ∧
        extra = [] := by
  refine ⟨_, rfl, ?_⟩
  obtain ⟨booking, extra, hb, hl, -, -, -, -, -, -, -, -, -, hne, -⟩ :=
    @issue_ticket_posts_commission_split dbIssue 1 70 owner1 "cash" _ rfl
  have hbk : booking = bk70 := by
    have h2 : dbIssue.bookings.find? (fun b => b.id == 70) = some bk70 := rfl
    rw [hb] at h2
    exact Option.some.inj h2
  refine ⟨extra, hl, hne ?_⟩
  intro hcontra
  rw [hbk] at hcontra
  exact absurd hcontra.1 (by decide)

/-- C8: for an agent-channel booking whose owner–agent connection row is found,
a successful `issueTicket` appends a third ledger entry recording the agent's
payable for the full `grand_total` (not just the commission) and sets the
connection's `current_balance` to its previous value plus `grand_total`; on
every other path (non-agent channel, no agent id, or no connection row) the
connections table is left untouched. -/
theorem issue_ticket_agent_settlement {db : DB} {sid bid : ℕ} {u : User}
    {pm : String} {r : DB × IssueResult} {booking : Booking}
    (h : issue_ticket db sid bid u pm = Except.ok r)
    (hb : db.bookings.find? (fun b => b.id == bid) = some booking) :
    (∀ a conn, booking.channel = "AGENT" → booking.agent_id = some a →
      db.connections.find? (fun c => c.owner_id == u.id && c.agent_id == a) = some conn →
      r.1.connections = db.connections.map (fun c =>
        if c.owner_id == u.id && c.agent_id == a then
          { c with current_balance := conn.current_balance + booking.grand_total }
        else c) ∧
      r.1.ledger = db.ledger ++ [platform_credit_entry db u.id, owner_debit_entry db u.id,
        agent_payable_entry db u.id booking.grand_total
          (conn.current_balance + booking.grand_total)] ∧
      (agent_payable_entry db u.id booking.grand_total
        (conn.current_balance + booking.grand_total)).commission_amount
          = booking.grand_total) ∧
    (¬ (booking.channel = "AGENT" ∧ ∃ a conn, booking.agent_id = some a ∧
        db.connections.find? (fun c => c.owner_id == u.id && c.agent_id == a) = some conn) →
      r.1.connections = db.connections) := by
  obtain ⟨schedule, booking2, hs, hb2, hr⟩ := issue_ticket_ok_inv h
  rw [hb] at hb2
  obtain rfl : booking = booking2 := Option.some.inj hb2
  subst hr
  constructor
  · intro a conn hc ha hfind
    simp only [issue_post, if_pos hc, ha, hfind]
    exact ⟨trivial, trivial, rfl⟩
  · intro hno
    by_cases hc : booking.channel = "AGENT"
    · cases ha : booking.agent_id with
      | none => simp only [issue_post, if_pos hc, ha]
      | some a =>
        rcases hfind : db.connections.find? (fun c => c.owner_id == u.id && c.agent_id == a)
          with _ | conn
        · simp only [issue_post, if_pos hc, ha, hfind]
        · exact absurd ⟨hc, a, conn, ha, hfind⟩ hno
    · simp only [issue_post, if_neg hc]

/-- C8 witness: issuing agent booking 80 (grand total 150) against the
owner-1/agent-2 connection with balance 0 leaves the connection at balance
`0 + 150 = 150`. -/
theorem issue_ticket_agent_settlement_witness :
    ∃ r, issue_ticket dbAgent 1 80 owner1 "cash" = Except.ok r ∧
      r.1.connections
        = [⟨1, 2, 1000, connOA.current_balance + bk80.grand_total, "approved"⟩] ∧
      connOA.current_balance + bk80.grand_total = 150 := by
  refine ⟨_, rfl, ?_, by norm_num [connOA, bk80]⟩
  have h := (@issue_ticket_agent_settlement dbAgent 1 80 owner1 "cash" _ bk80
    rfl rfl).1 2 connOA rfl rfl rfl
  rw [h.1]
  rfl

/-- A pending two-seat booking (id 60) whose tickets were sold at a snapshot
price of 105 (base 100 plus a surcharge of 5 at sale time). -/
def bk60 : Booking := ⟨60, 1, 1, "PUBLIC", none, 210, 0, 0, 210, "PENDING", "UNCONFIRMED"⟩

/-- A database with booking 60 on seats A1, A2, snapshot price 105 per ticket,
while ticket type 1's current catalog `base_price` is 100. -/
def dbSnapshot : DB :=
  { schedules := [sched1]
    ticket_types := [tt1]
    schedule_ticket_types := [⟨1, 1, 5, 0, true⟩]
    destinations := [destA, destB]
    bookings := [bk60]
    tickets := [⟨61, 60, 1, 105, "A1"⟩, ⟨62, 60, 1, 105, "A2"⟩]
    seat_assignments := [⟨63, 60, 61, "A1", "ACTIVE"⟩, ⟨64, 60, 62, "A2", "ACTIVE"⟩]
    transactions := []
    ledger := []
    connections := []
    commission_rate := 10
    next_id := 400 }

/-- C9 counterexample: the claim says a partial cancellation recomputes
`subtotal` as the remaining tickets' snapshot price times the remaining ticket
count.  Removing seat A2 from booking 60 leaves one ticket whose snapshot
price is 105, yet the recomputed subtotal is 100 — the ticket type's current
`base_price` — not `105 × 1`. -/
theorem cancel_booking_ignores_snapshot_price :
    ∃ p, cancel_booking dbSnapshot 1 60 owner1 ["A2"] = Except.ok p ∧
      (p.1.tickets.map (fun t => t.fare_base_price_snapshot)) = [105] ∧
      (∃ b, p.1.bookings.find? (fun b => b.id == 60) = some b ∧ b.subtotal = 100) ∧
      (105 : ℚ) * 1 ≠ 100 := by
  refine ⟨_, rfl, rfl, ⟨_, rfl, ?_⟩, by norm_num⟩
  show tt1.base_price * ((1 : ℕ) : ℚ) = 100
  norm_num [tt1]

/-- C9 (amended): a partial cancellation naming a non-empty seat list
intersects it with the booking's current seats (failing when the intersection
is empty), deletes exactly those seats' `SeatAssignment` and `BookingTicket`
rows, and either auto-escalates to a full cancel (deleting the whole booking
with all of its rows) when no seat remains, or recomputes the booking's
`subtotal` as the ticket type's **current** `base_price` (looked up from the
booking's first pre-delete ticket) times the remaining seat count, with
`grand_total = subtotal + tax_total - discount_total`. -/
theorem cancel_booking_seat_removal {db : DB} {sid bid : ℕ} {u : User}
    {seats : List String} {r : DB × CancelResult}
    (h : cancel_booking db sid bid u seats = Except.ok r)
    (hne : ¬ seats.isEmpty) :
    ∃ booking,
      db.bookings.find? (fun b => b.id == bid) = some booking ∧
      ¬ (seats.filter (fun s => s ∈ current_seats_of db bid)).isEmpty ∧
      (((current_seats_of db bid).filter
          (fun s => s ∉ seats.filter (fun t => t ∈ current_seats_of db bid))).length = 0 →
        r.1.bookings = db.bookings.filter (fun b => b.id ≠ bid) ∧
        r.1.seat_assignments = db.seat_assignments.filter (fun sa => sa.booking_id ≠ bid) ∧
        r.1.tickets = db.tickets.filter (fun t => t.booking_id ≠ bid)) ∧
      (((current_seats_of db bid).filter
          (fun s => s ∉ seats.filter (fun t => t ∈ current_seats_of db bid))).length ≠ 0 →
        r.1.seat_assignments = db.seat_assignments.filter (fun sa =>
          !(sa.booking_id == bid &&
            sa.seat_no ∈ seats.filter (fun t => t ∈ current_seats_of db bid))) ∧
        r.1.tickets = db.tickets.filter (fun t =>
          !(t.booking_id == bid &&
            t.seat_no ∈ seats.filter (fun s => s ∈ current_seats_of db bid))) ∧
        ∀ ft tt, (db.tickets.filter (fun t => t.booking_id == bid)).head? = some ft →
          db.ticket_types.find? (fun x => x.id == ft.ticket_type_id) = some tt →
          r.1.bookings = db.bookings.map (fun b =>
            if b.id == bid then
              { booking with
                  subtotal := tt.base_price *
                    ((current_seats_of db bid).filter (fun s =>
                      s ∉ seats.filter (fun t => t ∈ current_seats_of db bid))).length
                  grand_total := tt.base_price *
                    ((current_seats_of db bid).filter (fun s =>
                      s ∉ seats.filter (fun t => t ∈ current_seats_of db bid))).length
                    + booking.tax_total - booking.discount_total }
            else b)) := by
  unfold cancel_booking at h
  cases hs : db.schedules.find? (fun s => s.id == sid) with
  | none => simp only [hs] at h; exact Except.noConfusion h
  | some schedule =>
  simp only [hs] at h
  by_cases h1 : schedule.owner_id ≠ u.id
  · simp only [if_pos h1] at h; exact Except.noConfusion h
  simp only [if_neg h1] at h
  cases hb : db.bookings.find? (fun b => b.id == bid) with
  | none => simp only [hb] at h; exact Except.noConfusion h
  | some booking =>
  simp only [hb] at h
  by_cases h2 : booking.schedule_id ≠ schedule.id
  · simp only [if_pos h2] at h; exact Except.noConfusion h
  simp only [if_neg h2] at h
  rw [if_neg hne] at h
  by_cases h3 : (seats.filter (fun s => s ∈ current_seats_of db bid)).isEmpty
  · rw [if_pos h3] at h; exact Except.noConfusion h
  rw [if_neg h3] at h
  refine ⟨booking, rfl, h3, ?_, ?_⟩
  · intro hzero
    rw [if_pos hzero] at h
    obtain rfl := (Except.ok.inj h).symm
    exact ⟨rfl, rfl, rfl⟩
  · intro hpos
    rw [if_neg hpos] at h
    obtain rfl := (Except.ok.inj h).symm
    refine ⟨rfl, rfl, ?_⟩
    intro ft tt hft htt
    simp only [hft, htt]

/-- C9 witness: removing seat A2 from two-seat booking 60 deletes exactly that
assignment, keeps assignment A1, and rewrites the booking's totals from ticket
type 1's current base price. -/
theorem cancel_booking_seat_removal_witness :
    ∃ r, cancel_booking dbSnapshot 1 60 owner1 ["A2"] = Except.ok r ∧
      r.1.seat_assignments = [⟨63, 60, 61, "A1", "ACTIVE"⟩] := by
  refine ⟨_, rfl, ?_⟩
  obtain ⟨booking, hb, hstr, hesc, hupd⟩ :=
    @cancel_booking_seat_removal dbSnapshot 1 60 owner1 ["A2"] _ rfl (by decide)
  rw [(hupd (by decide)).1]
  rfl


/-- The line fold of `calculate_tax` agrees with the spec's per-line recursion
for lines whose `type` and `applies_to` are among the documented values. -/
theorem tax_fold_eq_specTaxSum (base : ℚ) (lines : List TaxLine) :
    ∀ acc : ℚ,
      (∀ l ∈ lines, (l.type = "PERCENT" ∨ l.type = "FIXED") ∧
        (l.applies_to = "FARE" ∨ l.applies_to = "TOTAL")) →
      lines.foldl (tax_line_step base) acc = specTaxSum base acc lines := by
  induction lines with
  | nil => intro acc h; rfl
  | cons l rest ih =>
    intro acc h
    obtain ⟨hty, hap⟩ := h l (List.mem_cons_self _ _)
    have hrest := fun x hx => h x (List.mem_cons_of_mem _ hx)
    cases hact : l.active with
    | false =>
      have h1 : tax_line_step base acc l = acc := by
        unfold tax_line_step
        rw [hact]
        rfl
      rw [List.foldl_cons, h1]
      simp only [specTaxSum, hact, Bool.false_eq_true, if_false]
      exact ih acc hrest
    | true =>
      have h1 : tax_line_step base acc l = acc + specLineTax base acc l := by
        unfold tax_line_step specLineTax
        rw [hact]
        rcases hty with hP | hF
        · rcases hap with hA | hT
          · rw [hP, hA]; simp
          · rw [hP, hT]; simp
        · rw [hF]; simp
      rw [List.foldl_cons, h1]
      simp only [specTaxSum, hact, if_true]
      exact ih _ hrest

/-- C6: for every tax profile whose lines use the documented type and
applies-to values, `calculate_tax` equals the spec's description: iterate the
active lines in stored order (PERCENT-on-FARE taxing the base amount,
PERCENT-on-TOTAL taxing base plus previously accumulated tax, FIXED adding its
flat value) and apply the profile's rounding rule exactly once to the sum. -/
theorem calculate_tax_matches_spec (p : TaxProfile) (base : ℚ)
    (h : ∀ l ∈ p.lines, (l.type = "PERCENT" ∨ l.type = "FIXED") ∧
      (l.applies_to = "FARE" ∨ l.applies_to = "TOTAL")) :
    calculate_tax p base = specRound p.rounding_rule (specTaxSum base 0 p.lines) := by
  unfold calculate_tax specRound
  rw [tax_fold_eq_specTaxSum base p.lines 0 h]

/-- C6 witness: a three-line profile (8% on fare, 2% cascading on total, flat 3,
with one inactive line) at base 100 evaluates identically under the code and
the spec description. -/
theorem calculate_tax_matches_spec_witness :
    calculate_tax
      ⟨[⟨true, "PERCENT", 8, "FARE"⟩, ⟨true, "PERCENT", 2, "TOTAL"⟩,
        ⟨false, "FIXED", 5, "FARE"⟩, ⟨true, "FIXED", 3, "FARE"⟩], "ROUND_NEAREST"⟩ 100
      = specRound "ROUND_NEAREST"
        (specTaxSum 100 0
          [⟨true, "PERCENT", 8, "FARE"⟩, ⟨true, "PERCENT", 2, "TOTAL"⟩,
            ⟨false, "FIXED", 5, "FARE"⟩, ⟨true, "FIXED", 3, "FARE"⟩]) := by
  exact calculate_tax_matches_spec
    ⟨[⟨true, "PERCENT", 8, "FARE"⟩, ⟨true, "PERCENT", 2, "TOTAL"⟩,
      ⟨false, "FIXED", 5, "FARE"⟩, ⟨true, "FIXED", 3, "FARE"⟩], "ROUND_NEAREST"⟩ 100
    (by decide)


/-- Rounding an integer-valued rational to two decimals is the identity. -/
theorem pyRound2_intCast (n : ℤ) : pyRound2 (n : ℚ) = n := by
  unfold pyRound2 roundHalfEven
  have h : ((n : ℚ) * 100) = ((n * 100 : ℤ) : ℚ) := by push_cast; ring
  rw [h, Int.floor_intCast, sub_self]
  rw [if_pos (by norm_num : (0 : ℚ) < 1 / 2)]
  push_cast
  ring

/-- A configuration with a single enabled exclusive 10% percentage tax. -/
def cfgExcl : TaxConfig := ⟨true, [⟨true, 10, "percentage", false⟩]⟩

/-- C7 counterexample: the claim says the subtotal→total→subtotal round trip
reproduces the subtotal within 0.01 for every tax configuration.  With one
enabled exclusive 10% tax and subtotal 100, `calculate_total_from_subtotal`
yields 110, but `calculate_subtotal_from_total` only backs out *inclusive*
taxes and returns 110 unchanged — an error of 10, far beyond 0.01. -/
theorem tax_roundtrip_fails_for_exclusive_tax :
    calculate_total_from_subtotal cfgExcl 100 = 110 ∧
    calculate_subtotal_from_total cfgExcl (calculate_total_from_subtotal cfgExcl 100)
      = 110 ∧
    ¬ |calculate_subtotal_from_total cfgExcl (calculate_total_from_subtotal cfgExcl 100)
        - 100| ≤ 1 / 100 := by
  have h1 : calculate_total_from_subtotal cfgExcl 100 = 110 := by
    unfold calculate_total_from_subtotal
    norm_num [cfgExcl, List.filter, List.foldl, List.isEmpty, exclusive_add_step]
    have h := pyRound2_intCast 110
    norm_num at h
    convert h using 2
  have h2 : calculate_subtotal_from_total cfgExcl 110 = 110 := by
    unfold calculate_subtotal_from_total
    norm_num [cfgExcl, List.filter, List.isEmpty]
  refine ⟨h1, by rw [h1, h2], ?_⟩
  rw [h1, h2]
  norm_num


/-- Filtering the enabled taxes and then the inclusive ones equals filtering
by the conjunction. -/
theorem filter_enabled_inclusive (l : List CfgTax) :
    (l.filter (fun t => t.enabled)).filter (fun t => t.inclusive)
      = l.filter (fun t => t.enabled && t.inclusive) := by
  induction l with
  | nil => rfl
  | cons t r ih =>
    cases ht : t.enabled <;> cases hi : t.inclusive <;>
      simp [List.filter_cons, ht, hi, ih]

/-- The first component of the inclusive-tax pair fold is the plain
effective-rate fold when every tax in the list is a percentage tax. -/
theorem pair_fold_fst (l : List CfgTax) :
    ∀ a b : ℚ, (∀ t ∈ l, t.type = "percentage") →
      (l.foldl inclusive_pair_step (a, b)).1 = l.foldl rate_add_step a := by
  induction l with
  | nil => intro a b h; rfl
  | cons t r ih =>
    intro a b h
    have hT := h t (List.mem_cons_self _ _)
    simp only [List.foldl_cons, inclusive_pair_step, rate_add_step, if_pos hT]
    exact ih _ _ (fun x hx => h x (List.mem_cons_of_mem _ hx))

/-- The flat-inclusive subtraction loop is the identity when every tax in the
list is a percentage tax. -/
theorem flat_fold_id (l : List CfgTax) :
    ∀ T : ℚ, (∀ t ∈ l, t.type = "percentage") →
      l.foldl flat_sub_step T = T := by
  induction l with
  | nil => intro T h; rfl
  | cons t r ih =>
    intro T h
    have hT : ¬ t.type = "flat" := by
      rw [h t (List.mem_cons_self _ _)]
      decide
    simp only [List.foldl_cons, flat_sub_step, if_neg hT]
    exact ih T (fun x hx => h x (List.mem_cons_of_mem _ hx))

/-- The effective-rate fold only grows when all rates are nonnegative. -/
theorem rate_fold_ge (l : List CfgTax) :
    ∀ a : ℚ, (∀ t ∈ l, 0 ≤ t.rate) →
      a ≤ l.foldl rate_add_step a := by
  induction l with
  | nil => intro a h; exact le_refl a
  | cons t r ih =>
    intro a h
    have h0 := h t (List.mem_cons_self _ _)
    have h1 : a ≤ a + t.rate / 100 := by linarith
    simp only [List.foldl_cons, rate_add_step]
    exact le_trans h1 (ih _ (fun x hx => h x (List.mem_cons_of_mem _ hx)))


/-- C7 (amended): the subtotal-total-subtotal round trip reproduces the
subtotal within 0.01 for configurations whose enabled inclusive taxes are all
nonnegative percentage taxes and which, when any tax is enabled at all, have
at least one inclusive one. -/
theorem tax_roundtrip_within_cent (cfg : TaxConfig) (S : ℚ)
    (hincl : ∀ t ∈ cfg.taxes, t.enabled = true → t.inclusive = true →
      t.type = "percentage" ∧ 0 ≤ t.rate)
    (hsome : cfg.enabled = true →
      (cfg.taxes.filter (fun t => t.enabled)).isEmpty = false →
      (cfg.taxes.filter (fun t => t.enabled && t.inclusive)).isEmpty = false) :
    |calculate_subtotal_from_total cfg (calculate_total_from_subtotal cfg S) - S|
      ≤ 1 / 100 := by
  cases hen : cfg.enabled with
  | false =>
    unfold calculate_total_from_subtotal calculate_subtotal_from_total
    simp [hen]
  | true =>
  have hIprop : ∀ t ∈ cfg.taxes.filter (fun t => t.enabled && t.inclusive),
      t.type = "percentage" ∧ 0 ≤ t.rate := by
    intro t ht
    have hm := List.mem_filter.mp ht
    have hb : t.enabled = true ∧ t.inclusive = true := by simpa using hm.2
    exact hincl t hm.1 hb.1 hb.2
  cases hE : (cfg.taxes.filter (fun t => t.enabled)).isEmpty with
  | true =>
    have hEnil : cfg.taxes.filter (fun t => t.enabled) = [] := by
      simpa using hE
    have hInil : cfg.taxes.filter (fun t => t.enabled && t.inclusive) = [] := by
      rw [List.filter_eq_nil_iff] at hEnil ⊢
      intro a ha hcontra
      have hb : a.enabled = true ∧ a.inclusive = true := by simpa using hcontra
      exact hEnil a ha hb.1
    unfold calculate_total_from_subtotal calculate_subtotal_from_total
    simp [hen, hEnil, hInil]
  | false =>
    have hIne := hsome hen hE
    have hIperc : ∀ t ∈ cfg.taxes.filter (fun t => t.enabled && t.inclusive),
        t.type = "percentage" := fun t ht => (hIprop t ht).1
    have hIrate : ∀ t ∈ cfg.taxes.filter (fun t => t.enabled && t.inclusive),
        0 ≤ t.rate := fun t ht => (hIprop t ht).2
    have hr1 : (1 : ℚ) ≤ (cfg.taxes.filter (fun t => t.enabled && t.inclusive)).foldl
        rate_add_step 1 :=
      rate_fold_ge _ 1 hIrate
    have hr0 : (0 : ℚ) < (cfg.taxes.filter (fun t => t.enabled && t.inclusive)).foldl
        rate_add_step 1 := lt_of_lt_of_le one_pos hr1
    have hT : calculate_total_from_subtotal cfg S
        = pyRound2 (S * (cfg.taxes.filter (fun t => t.enabled && t.inclusive)).foldl
            rate_add_step 1) := by
      unfold calculate_total_from_subtotal
      dsimp only
      rw [filter_enabled_inclusive]
      rw [if_neg (by simp [hen])]
      rw [if_neg (by simp [hE])]
      rw [if_neg (by simp [hIne])]
      rw [pair_fold_fst _ 1
        ((cfg.taxes.filter (fun t => t.enabled)).foldl (exclusive_add_step S) S) hIperc]
    have hpercfilter : (cfg.taxes.filter (fun t => t.enabled && t.inclusive)).filter
        (fun t => t.type = "percentage")
        = cfg.taxes.filter (fun t => t.enabled && t.inclusive) := by
      rw [List.filter_eq_self]
      intro a ha
      exact decide_eq_true (hIperc a ha)
    have hS : ∀ T : ℚ, calculate_subtotal_from_total cfg T
        = pyRound2 (T / (cfg.taxes.filter (fun t => t.enabled && t.inclusive)).foldl
            rate_add_step 1) := by
      intro T
      unfold calculate_subtotal_from_total
      dsimp only
      rw [if_neg (by simp [hen])]
      rw [if_neg (by simp [hIne])]
      rw [flat_fold_id _ T hIperc, hpercfilter]
      rw [if_neg (by simp [hIne])]
    set r := (cfg.taxes.filter (fun t => t.enabled && t.inclusive)).foldl
      rate_add_step 1 with hrdef
    set T := calculate_total_from_subtotal cfg S with hTdef
    rw [hS T, hT]
    have e1 : |pyRound2 (S * r) - S * r| ≤ 1 / 200 := abs_pyRound2_sub_le (S * r)
    have e2 : |pyRound2 (pyRound2 (S * r) / r) - pyRound2 (S * r) / r| ≤ 1 / 200 :=
      abs_pyRound2_sub_le _
    have hdiv : |pyRound2 (S * r) / r - S| = |pyRound2 (S * r) - S * r| / r := by
      rw [show pyRound2 (S * r) / r - S = (pyRound2 (S * r) - S * r) / r by
        field_simp; ring]
      rw [abs_div, abs_of_pos hr0]
    have hstep : |pyRound2 (S * r) / r - S| ≤ 1 / 200 := by
      rw [hdiv]
      calc |pyRound2 (S * r) - S * r| / r ≤ (1 / 200) / r := by gcongr
        _ ≤ 1 / 200 := div_le_self (by norm_num) hr1
    calc |pyRound2 (pyRound2 (S * r) / r) - S|
        ≤ |pyRound2 (pyRound2 (S * r) / r) - pyRound2 (S * r) / r|
          + |pyRound2 (S * r) / r - S| := abs_sub_le _ _ _
      _ ≤ 1 / 200 + 1 / 200 := add_le_add e2 hstep
      _ = 1 / 100 := by norm_num


/-- C7 witness: an 8% inclusive tax at subtotal 100 round-trips within a cent
(here exactly: 100 -> 108 -> 100). -/
theorem tax_roundtrip_within_cent_witness :
    |calculate_subtotal_from_total ⟨true, [⟨true, 8, "percentage", true⟩]⟩
      (calculate_total_from_subtotal ⟨true, [⟨true, 8, "percentage", true⟩]⟩ 100)
      - 100| ≤ 1 / 100 :=
  tax_roundtrip_within_cent ⟨true, [⟨true, 8, "percentage", true⟩]⟩ 100
    (by intro t ht h1 h2
        simp only [List.mem_singleton] at ht
        subst ht
        exact ⟨rfl, by norm_num⟩)
    (fun _ _ => rfl)


/-- C10: in the pricing engine, an OWNER-channel booking is automatically
discounted by 10% of the subtotal (reducing the grand total accordingly,
before the positive app fee is added), while PUBLIC and AGENT channel bookings
receive no channel discount. -/
theorem pricing_engine_channel_discount
    {stts : List ScheduleTicketType} {ttypes : List TicketType}
    {tp : Option TaxProfile} {rate : ℚ} {reqs : List TicketRequest}
    {channel : String} {aid : Option ℕ} {r : PriceBreakdown}
    (h : calculate_booking_price stts ttypes tp rate reqs channel aid = Except.ok r) :
    (channel = "OWNER" → r.discount_total = r.subtotal * (1 / 10)) ∧
    ((channel = "PUBLIC" ∨ channel = "AGENT") → r.discount_total = 0) ∧
    r.grand_total = r.subtotal + r.tax_total - r.discount_total
      + (if 0 < r.app_fee then r.app_fee else 0) := by
  unfold calculate_booking_price at h
  dsimp only at h
  by_cases h1 : (stts.filter (fun s => s.active)).isEmpty
  · rw [if_pos h1] at h; exact Except.noConfusion h
  rw [if_neg h1] at h
  cases hlt : line_totals (stts.filter (fun s => s.active)) ttypes reqs with
  | error e => simp only [hlt] at h; exact Except.noConfusion h
  | ok subtotal =>
  simp only [hlt, Except.ok.injEq] at h
  subst h
  refine ⟨?_, ?_, ?_⟩
  · intro hc
    simp [get_channel_modifiers, hc]
  · intro hc
    rcases hc with hc | hc
    · simp [get_channel_modifiers, hc]
    · cases aid <;> simp [get_channel_modifiers, hc]
  · dsimp only
    split_ifs <;> ring

/-- C10 witness: two OWNER-channel seats of ticket type 1 (subtotal 200) get a
channel discount of exactly one tenth of the subtotal. -/
theorem pricing_engine_channel_discount_witness :
    ∃ r, calculate_booking_price [⟨1, 1, 0, 0, true⟩] [tt1] none 10 [⟨1, 2⟩]
        "OWNER" none = Except.ok r ∧
      r.discount_total = r.subtotal * (1 / 10) ∧ r.subtotal = 200 := by
  have hr : calculate_booking_price [⟨1, 1, 0, 0, true⟩] [tt1] none 10 [⟨1, 2⟩]
      "OWNER" none = Except.ok ⟨200, 0, 20, 10, 190⟩ := by
    unfold calculate_booking_price line_totals
    norm_num [get_channel_modifiers, tt1, List.filter, List.isEmpty, List.find?]
    norm_num [line_totals, Except.map]
  exact ⟨_, hr, (pricing_engine_channel_discount hr).1 rfl, by norm_num⟩


end Jaaga
